import Mathlib

/-!
Verification of `pydantic/_internal/_repr.py`: pretty/human-readable display
of objects (the `Representation` mixin, the `PlainRepr` string wrapper and
the `display_as_type` function), shallowly embedded in Lean.
-/

namespace PydanticRepr

/-- Python runtime values as far as this display module observes them:
the `None` sentinel, integers, booleans, plain strings, `PlainRepr` strings
(whose `__repr__` is the raw content) and a catch-all for any other object,
carrying the string its own `repr` produces. -/
inductive Value where
  | none
  | int (n : Int)
  | bool (b : Bool)
  | str (s : String)
  | plainRepr (s : String)
  | other (reprForm : String)
deriving DecidableEq

/-- Whether the string holds the character `c` somewhere. -/
def hasChar (s : String) (c : Char) : Bool :=
  s.data.any (fun d => d == c)

/-- Escape one character of a Python string literal quoted with `q`
(backslash, the quote character and the common control characters; other
characters are kept verbatim, as CPython does for printable text). -/
def escapeChar (q : Char) (c : Char) : String :=
  if c = '\\' then "\\\\"
  else if c = q then "\\" ++ q.toString
  else if c = '\n' then "\\n"
  else if c = '\r' then "\\r"
  else if c = '\t' then "\\t"
  else c.toString

/-- Python `repr` of a string: single-quoted by default, double-quoted when
the text holds a single quote but no double quote, with escaping. -/
def pyStrRepr (s : String) : String :=
  let q : Char := if hasChar s '\'' && !(hasChar s '"') then '"' else '\''
  q.toString ++ String.join (s.data.map (escapeChar q)) ++ q.toString

/-- Python `repr` on the embedded values. `PlainRepr.__repr__` returns
`str(self)`: the raw content, no quotes, no escaping. -/
def pyRepr : Value → String
  | .none => "None"
  | .int n => toString n
  | .bool b => if b then "True" else "False"
  | .str s => pyStrRepr s
  | .plainRepr s => s
  | .other reprForm => reprForm

/-- The `PlainRepr` class: a `str` subclass, so it carries exactly a string
value and inherits every string operation unchanged. -/
structure PlainRepr where
  val : String
deriving DecidableEq

/-- `str(self)` on a `PlainRepr`: inherited from `str`, the content itself. -/
def PlainRepr.toStr (p : PlainRepr) : String := p.val

/-- `PlainRepr.__repr__`: `return str(self)`. -/
def PlainRepr.reprForm (p : PlainRepr) : String := p.toStr

/-- The entry sequence produced by `__repr_args__`: pairs of an optional
name and a value (`ReprArgs = Iterable[tuple[str | None, Any]]`). -/
abbrev ReprArgs := List (Option String × Value)

/-- Default `Representation.__repr_args__`: iterate the object's attribute
names in declaration order (`__slots__`, else `__dict__` keys) and keep
`(s, getattr(self, s))` exactly when the value `is not None`. -/
def repr_args (attrs : List (String × Value)) : ReprArgs :=
  (attrs.filter (fun p => p.2 != Value.none)).map (fun p => (some p.1, p.2))

/-- `Representation.__repr_str__(join_str)`: render each entry as
`f'{a}={v!r}'` when the name `a` is truthy (not `None` and not the empty
string), else as `repr(v)` alone, and join with `join_str`. -/
def repr_str (joinStr : String) (args : ReprArgs) : String :=
  String.intercalate joinStr (args.map (fun p =>
    match p.1 with
    | some a => if a ≠ "" then a ++ "=" ++ pyRepr p.2 else pyRepr p.2
    | Option.none => pyRepr p.2))

/-- `Representation.__repr__`:
`f'{self.__repr_name__()}({self.__repr_str__(", ")})'`; the first argument
is the result of `__repr_name__` (by default the class name). -/
def repr_full (reprName : String) (args : ReprArgs) : String :=
  reprName ++ "(" ++ repr_str ", " args ++ ")"

/-- `Representation.__str__`: `self.__repr_str__(' ')`. -/
def str_full (args : ReprArgs) : String :=
  repr_str " " args

/-- One token yielded by `Representation.__pretty__`: the generator yields
strings, indentation integers (`1`, `0`, `-1`) and `fmt(value)` results. -/
inductive PrettyItem (α : Type) where
  | str (s : String)
  | indent (n : Int)
  | fmt (a : α)
deriving DecidableEq

/-- `Representation.__pretty__(fmt)`: yield `name + '('`, `1`, then for each
entry `name + '='` when the name `is not None` (also when it is the empty
string), `fmt(value)`, `','`, `0`, and finally `-1`, `')'`. -/
def pretty {α : Type} (fmt : Value → α) (reprName : String) (args : ReprArgs) :
    List (PrettyItem α) :=
  (PrettyItem.str (reprName ++ "(") :: PrettyItem.indent 1 ::
    (args.map (fun p =>
      (match p.1 with
       | some name => [PrettyItem.str (name ++ "=")]
       | Option.none => []) ++
      [PrettyItem.fmt (fmt p.2), PrettyItem.str ",", PrettyItem.indent 0])).flatten)
  ++ [PrettyItem.indent (-1), PrettyItem.str ")"]

/-- One item yielded by `Representation.__rich_repr__`: a bare value when
the entry's name is `None`, else a `(name, value)` pair. -/
inductive RichItem where
  | bare (v : Value)
  | pair (name : String) (v : Value)
deriving DecidableEq

/-- `Representation.__rich_repr__`: for each entry yield the value alone
when the name `is None`, else the `(name, value)` pair. -/
def rich_repr (args : ReprArgs) : List RichItem :=
  args.map (fun p =>
    match p.1 with
    | Option.none => RichItem.bare p.2
    | some name => RichItem.pair name p.2)

/-- A type expression as `display_as_type` categorizes its input. The
dispatch in `_repr.py` tests, in order: `types.FunctionType`, `...`,
`Representation`, `typing_extensions.TypeAliasType`; then the category
tests `origin_is_union(get_origin(obj))`, `isinstance(obj, WithArgsTypes)`
with the literal-origin sub-case, and `isinstance(obj, type)`. The category
predicates live in `_typing_extra` (not among the sources), so, following
the spec's closed-tagged-variant design note, each input is embedded as the
category it satisfies, carrying exactly the data the branch reads:
`qualname` is `obj.__qualname__` when the attribute lookup succeeds (`none`
when it raises `AttributeError`), `strForm` is `str(obj)`, and
`instanceOf clsQualname` is a non-type value replaced by its runtime class
`obj.__class__`, a plain class with the given qualified name. -/
inductive TypeExpr where
  | func (name : String)
  | ellipsis
  | representation (reprName : String) (args : ReprArgs)
  | typeAliasType (strForm : String)
  | union (args : List TypeExpr)
  | lit (qualname : Option String) (strForm : String) (vals : List Value)
  | generic (qualname : Option String) (strForm : String) (args : List TypeExpr)
  | plainClass (qualname : String)
  | instanceOf (clsQualname : String)
  | special (reprForm : String)

/-- The final `else` branch of `display_as_type`:
`repr(obj).replace('typing.', '').replace('typing_extensions.', '')`. -/
def strip_typing_prefixes (s : String) : String :=
  (s.replace "typing." "").replace "typing_extensions." ""

mutual

/-- `display_as_type(obj)`. Early returns: a plain function's `__name__`,
`'...'` for `Ellipsis`, `repr(obj)` for a `Representation` instance, and
`str(obj)` for a `TypeAliasType`. A value that is no type expression is
replaced by its class (a plain class, displayed by qualified name). A union
displays its arguments recursively inside `Union[...]`; a parameterized
type displays `obj.__qualname__` and its arguments, recursively except for
`Literal`, whose arguments are shown with `repr`; when the `__qualname__`
lookup raises `AttributeError`, the `except` branch returns `str(obj)`. A
plain class displays as `obj.__qualname__`; anything else as `repr(obj)`
with the `typing.`/`typing_extensions.` prefixes stripped. -/
def display_as_type : TypeExpr → String
  | .func name => name
  | .ellipsis => "..."
  | .representation reprName args => repr_full reprName args
  | .typeAliasType strForm => strForm
  | .instanceOf clsQualname => clsQualname
  | .union args => "Union[" ++ String.intercalate ", " (display_list args) ++ "]"
  | .lit (some q) _ vals =>
      q ++ "[" ++ String.intercalate ", " (vals.map pyRepr) ++ "]"
  | .lit Option.none strForm _ => strForm
  | .generic (some q) _ args =>
      q ++ "[" ++ String.intercalate ", " (display_list args) ++ "]"
  | .generic Option.none strForm _ => strForm
  | .plainClass qualname => qualname
  | .special reprForm => strip_typing_prefixes reprForm

/-- `display_as_type` mapped over a list of type arguments
(`', '.join(map(display_as_type, typing_extensions.get_args(obj)))`). -/
def display_list : List TypeExpr → List String
  | [] => []
  | t :: ts => display_as_type t :: display_list ts

end

/-- `display_list` is the pointwise map of `display_as_type`. -/
theorem display_list_eq_map (ts : List TypeExpr) :
    display_list ts = ts.map display_as_type := by
  induction ts with
  | nil => simp [display_list]
  | cons t ts ih => simp [display_list, ih]

/-- Every entry emitted by the default `__repr_args__` has a value other
than `None`. -/
theorem repr_args_no_none (attrs : List (String × Value)) :
    ∀ p ∈ repr_args attrs, p.2 ≠ Value.none := by
  intro p hp
  obtain ⟨q, hq, rfl⟩ := List.mem_map.mp hp
  simpa using (List.mem_filter.mp hq).2

/-- C1: `__repr__` is always `__repr_name__()` followed by `(` + the
entries joined with `", "` + `)`; on class `Foo` with entries
`[("a", 1), (None, "x")]` it gives `"Foo(a=1, 'x')"`; and with no entries
`__str__` returns the empty string while `__repr__` returns `"<ClassName>()"`. -/
theorem repr_is_name_parens_join (reprName : String) (args : ReprArgs) :
    repr_full reprName args = reprName ++ "(" ++ repr_str ", " args ++ ")"
    ∧ repr_full "Foo" [(some "a", Value.int 1), (Option.none, Value.str "x")]
        = "Foo(a=1, 'x')"
    ∧ str_full [] = ""
    ∧ repr_full reprName [] = reprName ++ "()" := by
  refine ⟨rfl, by decide, rfl, ?_⟩
  show reprName ++ "(" ++ "" ++ ")" = reprName ++ "()"
  rw [String.append_empty, String.append_assoc]
  exact congrArg (reprName ++ ·) rfl

/-- C2: the default `__repr_args__` omits every attribute whose value is
the `None` sentinel (an object with `a=1, b=None` renders as `"Foo(a=1)"`)
and keeps attributes holding zero, false or the empty string. -/
theorem repr_args_filters_none (attrs : List (String × Value)) :
    ((repr_args attrs).all (fun p => p.2 != Value.none)) = true
    ∧ repr_full "Foo" (repr_args [("a", Value.int 1), ("b", Value.none)])
        = "Foo(a=1)"
    ∧ repr_args [("a", Value.int 0), ("b", Value.bool false), ("c", Value.str "")]
        = [(some "a", Value.int 0), (some "b", Value.bool false),
           (some "c", Value.str "")] := by
  refine ⟨?_, by decide, by decide⟩
  rw [List.all_eq_true]
  intro p hp
  simpa using repr_args_no_none attrs p hp

/-- C3: `PlainRepr(s)` has `repr` equal to `s` itself, with no quotes and
no escaping, and behaves as the plain string `s` otherwise (its `str` form
is `s` unchanged); the plain string `"abc"` instead has `repr` `'abc'`. -/
theorem plainRepr_repr_verbatim (s : String) :
    pyRepr (Value.plainRepr s) = s
    ∧ PlainRepr.reprForm ⟨s⟩ = s
    ∧ PlainRepr.toStr ⟨s⟩ = s
    ∧ pyRepr (Value.plainRepr "abc") = "abc"
    ∧ pyRepr (Value.str "abc") = "'abc'" :=
  ⟨rfl, rfl, rfl, rfl, by decide⟩

/-- C4: `display_as_type` dispatches, before any type-expression
categorization, on: a plain function (its `__name__`), the ellipsis marker
(`"..."`), a `Representation` instance (its `repr`) and a `TypeAliasType`
(its `str` form). -/
theorem display_as_type_dispatch (n sf reprName : String) (args : ReprArgs) :
    display_as_type (TypeExpr.func n) = n
    ∧ display_as_type TypeExpr.ellipsis = "..."
    ∧ display_as_type (TypeExpr.representation reprName args)
        = repr_full reprName args
    ∧ display_as_type (TypeExpr.typeAliasType sf) = sf := by
  refine ⟨?_, ?_, ?_, ?_⟩ <;> simp [display_as_type]

/-- C5: `display_as_type` on representative inputs: the plain class `int`
gives `"int"`, the parameterized `List[int]` (qualified name `List`,
argument `int`) gives `"List[int]"`, the ellipsis marker gives `"..."` and
a plain function named `foo` gives `"foo"`. -/
theorem display_as_type_examples :
    display_as_type (TypeExpr.plainClass "int") = "int"
    ∧ display_as_type (TypeExpr.generic (some "List") "typing.List[int]"
        [TypeExpr.plainClass "int"]) = "List[int]"
    ∧ display_as_type TypeExpr.ellipsis = "..."
    ∧ display_as_type (TypeExpr.func "foo") = "foo" := by
  refine ⟨by simp [display_as_type], ?_, by simp [display_as_type],
    by simp [display_as_type]⟩
  simp only [display_as_type, display_list]
  decide

/-- C6: literal-type arguments are rendered via `repr` (string values keep
their quotes), never by recursive type display: `Literal[1, "x"]` renders
its arguments as `1, 'x'`. -/
theorem literal_args_rendered_by_repr (q sf : String) (vals : List Value) :
    display_as_type (TypeExpr.lit (some q) sf vals)
      = q ++ "[" ++ String.intercalate ", " (vals.map pyRepr) ++ "]"
    ∧ display_as_type (TypeExpr.lit (some "Literal") "typing.Literal[1, 'x']"
        [Value.int 1, Value.str "x"]) = "Literal[1, 'x']" := by
  refine ⟨by simp [display_as_type], ?_⟩
  simp only [display_as_type]
  decide

/-- C7: a union type displays each member recursively, joined with `", "`
and wrapped as `Union[...]`; `Union[int, str]` gives `"Union[int, str]"`. -/
theorem union_display (args : List TypeExpr) :
    display_as_type (TypeExpr.union args)
      = "Union[" ++ String.intercalate ", " (args.map display_as_type) ++ "]"
    ∧ display_as_type (TypeExpr.union
        [TypeExpr.plainClass "int", TypeExpr.plainClass "str"])
      = "Union[int, str]" := by
  refine ⟨by simp [display_as_type, display_list_eq_map], ?_⟩
  simp only [display_as_type, display_list]
  decide

/-- C8: when the object of a parameterized type lacks `__qualname__`, the
`AttributeError` is caught locally and `display_as_type` returns `str(obj)`
instead; the embedding is a total function, so no failure propagates. -/
theorem missing_qualname_falls_back_to_str (sf : String)
    (args : List TypeExpr) (vals : List Value) :
    display_as_type (TypeExpr.generic Option.none sf args) = sf
    ∧ display_as_type (TypeExpr.lit Option.none sf vals) = sf := by
  refine ⟨?_, ?_⟩ <;> simp [display_as_type]

/-- C9: `__repr__` and the `__pretty__` token sequence are deterministic
functions of the object's current name and entry list: two calls on the
same unmutated state yield identical results, with no cross-call state. -/
theorem repr_and_pretty_deterministic (reprName : String) (args : ReprArgs)
    (fmt : Value → Value) :
    repr_full reprName args = repr_full reprName args
    ∧ pretty fmt reprName args = pretty fmt reprName args
    ∧ rich_repr args = rich_repr args :=
  ⟨rfl, rfl, rfl⟩

/-- C10: on an entry named by the empty string, `__repr_str__` (truthiness
test) renders the bare value with no `=`, exactly as for a `None` name,
while `__pretty__` (`is not None` test) emits a `"="` label token and
`__rich_repr__` emits the pair `("", value)`. -/
theorem empty_name_renderers_disagree (v : Value) (reprName : String) :
    repr_str ", " [(some "", v)] = pyRepr v
    ∧ repr_str ", " [(some "", v)] = repr_str ", " [(Option.none, v)]
    ∧ pretty (fun x => x) reprName [(some "", v)]
        = [PrettyItem.str (reprName ++ "("), PrettyItem.indent 1,
           PrettyItem.str "=", PrettyItem.fmt v, PrettyItem.str ",",
           PrettyItem.indent 0, PrettyItem.indent (-1), PrettyItem.str ")"]
    ∧ rich_repr [(some "", v)] = [RichItem.pair "" v] := by
  refine ⟨?_, rfl, ?_, by simp [rich_repr]⟩
  · simp only [repr_str, List.map]
    rfl
  · simp [pretty]

end PydanticRepr
